/-
  Verification of the nxp_simtemp character driver core
  (kernel/nxp_simtemp.c) against its specification.

  The driver's state and operations are shallowly embedded: the
  per-device structure `simtemp_device` mirrors `struct simtemp_device`,
  and each file operation / sysfs store / timer callback is translated
  into a Lean function on that state.  Randomness (`get_random_u32`),
  clock readings (`ktime_get_real_ns`), user-copy success
  (`copy_to_user` / `copy_from_user`), and the return value of
  `wait_event_interruptible` are inputs to the functions.  Machine
  integers are modelled as `Nat` / `Int`; no value manipulated by the
  reachable code approaches a 32/64-bit boundary.
-/
import Mathlib

set_option linter.unusedVariables false

/-! ## Constants from nxp_simtemp.c / nxp_simtemp.h -/

def FIFO_SIZE : Nat := 256

def MIN_SAMPLING_MS : Nat := 10

def MAX_SAMPLING_MS : Nat := 60000

def SIMTEMP_FLAG_NEW_SAMPLE : Nat := 1

def SIMTEMP_FLAG_THRESHOLD_CROSSED : Nat := 2

/-- `sizeof(struct simtemp_sample)`: packed u64 + s32 + u32. -/
def sample_size : Nat := 16

/-- `_IOW('S', 1, struct simtemp_config)` = dir 1 ≪ 30 | size 8 ≪ 16 | 'S' ≪ 8 | 1. -/
def SIMTEMP_IOC_SET_CONFIG : Nat := (1 <<< 30) ||| (8 <<< 16) ||| (83 <<< 8) ||| 1

def EINVAL : Int := 22

def EAGAIN : Int := 11

def EFAULT : Int := 14

def ENOTTY : Int := 25

def ERESTARTSYS : Int := 512

def EPOLLIN : Nat := 1

def EPOLLPRI : Nat := 2

def EPOLLRDNORM : Nat := 64

/-! ## Data model -/

/-- `enum simtemp_mode` (MODE_MAX is only an array bound, never stored). -/
inductive simtemp_mode
  | MODE_NORMAL
  | MODE_NOISY
  | MODE_RAMP
deriving DecidableEq, Repr

/-- `struct simtemp_sample` (nxp_simtemp.h). -/
structure simtemp_sample where
  timestamp_ns : Nat
  temp_mC : Int
  flags : Nat
deriving DecidableEq, Repr

/-- `struct simtemp_config` (nxp_simtemp_ioctl.h). -/
structure simtemp_config where
  sampling_ms : Nat
  threshold_mC : Int
deriving DecidableEq, Repr

/-- `struct simtemp_device`: the fields that carry state.  The spinlock,
wait queue and platform/misc plumbing have no state of their own in the
model; the kfifo is the list of buffered samples, oldest first. -/
structure simtemp_device where
  sampling_ms : Nat
  threshold_mC : Int
  mode : simtemp_mode
  ramp_temp : Int
  event_flags : Nat
  update_count : Nat
  alert_count : Nat
  last_error : Int
  sample_fifo : List simtemp_sample
deriving DecidableEq, Repr

/-! ## Operations -/

/-- `kfifo_put`: appends the record if there is room; on a full fifo it
stores nothing (drops the newest write). -/
def kfifo_put (fifo : List simtemp_sample) (s : simtemp_sample) : List simtemp_sample :=
  if fifo.length < FIFO_SIZE then fifo ++ [s] else fifo

/-- `generate_temp` (nxp_simtemp.c lines 69-95).  `r` is the raw
`get_random_u32()` draw; `jitter = (r % 2000) - 1000`.  MODE_NOISY
multiplies the jitter by 5 and falls through to the MODE_NORMAL sum;
MODE_RAMP advances `ramp_temp` by 500, resets it to 25000 once it
exceeds 85000, and adds the C-truncated half jitter.  Returns the
temperature and the (possibly ramp-mutated) device. -/
def generate_temp (sdev : simtemp_device) (r : Nat) : Int × simtemp_device :=
  let base_temp : Int := 42000
  let jitter : Int := ((r % 2000 : Nat) : Int) - 1000
  match sdev.mode with
  | .MODE_NOISY => (base_temp + jitter * 5, sdev)
  | .MODE_NORMAL => (base_temp + jitter, sdev)
  | .MODE_RAMP =>
      let ramp0 := sdev.ramp_temp + 500
      let ramp := if ramp0 > 85000 then (25000 : Int) else ramp0
      (ramp + Int.tdiv jitter 2, { sdev with ramp_temp := ramp })

/-- `simtemp_timer_callback` (lines 97-132).  `now_ns` is the
`ktime_get_real_ns()` reading, `r` the random draw.  Returns the local
`sample` the callback built together with the updated device; the C
return value is the constant HRTIMER_RESTART. -/
def simtemp_timer_callback (sdev : simtemp_device) (now_ns r : Nat) :
    simtemp_sample × simtemp_device :=
  let g := generate_temp sdev r
  let sdev1 := g.2
  let sample : simtemp_sample :=
    { timestamp_ns := now_ns, temp_mC := g.1, flags := SIMTEMP_FLAG_NEW_SAMPLE }
  let sdev2 := { sdev1 with update_count := sdev1.update_count + 1 }
  if sample.temp_mC ≥ sdev2.threshold_mC then
    let sample' := { sample with flags := sample.flags ||| SIMTEMP_FLAG_THRESHOLD_CROSSED }
    let sdev3 := { sdev2 with
      event_flags := sdev2.event_flags ||| SIMTEMP_FLAG_THRESHOLD_CROSSED,
      alert_count := sdev2.alert_count + 1 }
    (sample', { sdev3 with sample_fifo := kfifo_put sdev3.sample_fifo sample' })
  else
    (sample, { sdev2 with sample_fifo := kfifo_put sdev2.sample_fifo sample })

/-- Result of a `read(2)` call: one sample, or a negative errno. -/
inductive read_result
  | ok (s : simtemp_sample)
  | err (e : Int)
deriving DecidableEq, Repr

/-- The spinlocked section of `simtemp_read` (lines 288-305):
`kfifo_get`; on failure unlock and return -EAGAIN; on success clear
`event_flags`, unlock, and `copy_to_user` (`copy_ok` says whether the
copy succeeds; on failure `last_error` is set and -EFAULT returned). -/
def simtemp_read_locked (copy_ok : Bool) (sdev : simtemp_device) :
    read_result × simtemp_device :=
  match sdev.sample_fifo with
  | [] => (.err (-EAGAIN), sdev)
  | sample :: rest =>
      let sdev' := { sdev with sample_fifo := rest, event_flags := 0 }
      if copy_ok then (.ok sample, sdev')
      else (.err (-EFAULT), { sdev' with last_error := -EFAULT })

/-- `simtemp_read` (lines 262-307).  `len` is the user buffer size,
`nonblock` the O_NONBLOCK flag, `wait_ret` the value
`wait_event_interruptible` would return (0 = woken with the condition
seen true, nonzero = interrupted by a signal).  `sdev0` is the device
state at the lockless `kfifo_is_empty` check and `sdev1` the state at
the time the spinlock is taken for the pop; a sequential execution has
`sdev0 = sdev1`, a concurrent one may not.  There is no retry loop:
after the wait the pop is attempted exactly once. -/
def simtemp_read (len : Nat) (nonblock : Bool) (wait_ret : Int) (copy_ok : Bool)
    (sdev0 sdev1 : simtemp_device) : read_result × simtemp_device :=
  if len < sample_size then (.err (-EINVAL), sdev1)
  else if sdev0.sample_fifo.isEmpty then
    if nonblock then (.err (-EAGAIN), sdev1)
    else if wait_ret ≠ 0 then (.err wait_ret, sdev1)
    else simtemp_read_locked copy_ok sdev1
  else simtemp_read_locked copy_ok sdev1

/-- `simtemp_ioctl` (lines 308-338).  `copy_ok` says whether
`copy_from_user` succeeds.  On a valid SIMTEMP_IOC_SET_CONFIG both
fields are written inside one spinlocked section; the `hrtimer_start`
reprogramming happens afterwards (see `simtemp_ioctl_success_events`
for the statement order). -/
def simtemp_ioctl (sdev : simtemp_device) (cmd : Nat) (copy_ok : Bool)
    (config : simtemp_config) : Int × simtemp_device :=
  if cmd = SIMTEMP_IOC_SET_CONFIG then
    if ¬copy_ok then (-EFAULT, sdev)
    else if config.sampling_ms < MIN_SAMPLING_MS ∨ config.sampling_ms > MAX_SAMPLING_MS then
      (-EINVAL, sdev)
    else
      (0, { sdev with sampling_ms := config.sampling_ms,
                      threshold_mC := config.threshold_mC })
  else (-ENOTTY, sdev)

/-- `sampling_ms_store` (lines 142-163), after a successful `kstrtou32`
parse to `new_period`.  (A parse failure returns the parse error with no
state change; successful stores return `count` — the returned `Int` here
is 0 for success, -EINVAL for the bounds rejection.) -/
def sampling_ms_store (sdev : simtemp_device) (new_period : Nat) :
    Int × simtemp_device :=
  if new_period < MIN_SAMPLING_MS ∨ new_period > MAX_SAMPLING_MS then (-EINVAL, sdev)
  else (0, { sdev with sampling_ms := new_period })

/-- `threshold_mC_store` (lines 172-188), after a successful parse:
stores unconditionally (the threshold is unbounded by design). -/
def threshold_mC_store (sdev : simtemp_device) (new_thresh : Int) :
    Int × simtemp_device :=
  (0, { sdev with threshold_mC := new_thresh })

/-- `mode_store` (lines 216-234) with a recognised mode string:
stores the mode and resets the ramp when MODE_RAMP is selected. -/
def simtemp_mode_store (sdev : simtemp_device) (m : simtemp_mode) :
    Int × simtemp_device :=
  if m = .MODE_RAMP then (0, { sdev with mode := m, ramp_temp := 25000 })
  else (0, { sdev with mode := m })

/-- `simtemp_poll` (lines 339-358): EPOLLIN|EPOLLRDNORM when the fifo is
non-empty, EPOLLPRI when the threshold-crossed event flag is set.  The
function only reads under the lock; the device is returned unchanged. -/
def simtemp_poll (sdev : simtemp_device) : Nat × simtemp_device :=
  let mask1 : Nat := if sdev.sample_fifo.isEmpty then 0 else EPOLLIN ||| EPOLLRDNORM
  let mask2 : Nat :=
    if sdev.event_flags &&& SIMTEMP_FLAG_THRESHOLD_CROSSED ≠ 0 then EPOLLPRI else 0
  (mask1 ||| mask2, sdev)

/-- `simtemp_probe` (lines 379-429).  `devm_kzalloc` zeroes every field;
`ramp_temp` is then set to 25000 and the defaults 1000 ms / 50000 mC are
installed.  When a device-tree node is present,
`of_property_read_u32/_s32` overwrite them with whatever the node says —
with no bounds check (`dt_sampling` / `dt_threshold` are the properties
found, `none` when absent). -/
def simtemp_probe (dt_sampling : Option Nat) (dt_threshold : Option Int) :
    simtemp_device :=
  { sampling_ms := dt_sampling.getD 1000
    threshold_mC := dt_threshold.getD 50000
    mode := .MODE_NORMAL
    ramp_temp := 25000
    event_flags := 0
    update_count := 0
    alert_count := 0
    last_error := 0
    sample_fifo := [] }

/-! ## Statement order of the set_config path (for the locking claims)

The successful SIMTEMP_IOC_SET_CONFIG branch of `simtemp_ioctl`
executes, in order: `spin_lock_irqsave`; the two field writes;
`spin_unlock_irqrestore`; then `hrtimer_start`.  The sysfs
`sampling_ms_store` by contrast calls `hrtimer_start` inside the locked
section.  These traces transliterate the statement order of the two
handlers. -/

inductive guard_event
  | lock
  | unlock
  | write_sampling_ms
  | write_threshold_mC
  | hrtimer_start_call
deriving DecidableEq, BEq, Repr

/-- Statement order of `simtemp_ioctl`'s successful set_config branch
(lines 325-333). -/
def simtemp_ioctl_success_events : List guard_event :=
  [.lock, .write_sampling_ms, .write_threshold_mC, .unlock, .hrtimer_start_call]

/-- Statement order of `sampling_ms_store`'s successful branch
(lines 156-159). -/
def sampling_ms_store_success_events : List guard_event :=
  [.lock, .write_sampling_ms, .hrtimer_start_call, .unlock]

/-- Position of the first occurrence of an event in the ioctl trace. -/
def ioctl_event_pos (e : guard_event) : Nat :=
  simtemp_ioctl_success_events.findIdx (fun x => x == e)

/-! ## Tick sequences and reachability -/

/-- Run a sequence of timer ticks; each input is a
(`ktime_get_real_ns` reading, `get_random_u32` draw) pair. -/
def run_ticks (sdev : simtemp_device) (inputs : List (Nat × Nat)) : simtemp_device :=
  inputs.foldl (fun s p => (simtemp_timer_callback s p.1 p.2).2) sdev

/-- The samples the successive ticks produce, in tick order. -/
def ticks_samples (sdev : simtemp_device) (inputs : List (Nat × Nat)) :
    List simtemp_sample :=
  match inputs with
  | [] => []
  | p :: rest =>
      (simtemp_timer_callback sdev p.1 p.2).1 ::
        ticks_samples (simtemp_timer_callback sdev p.1 p.2).2 rest

/-- One atomic operation of the driver on the device state. -/
inductive Step : simtemp_device → simtemp_device → Prop
  | tick (d : simtemp_device) (now r : Nat) :
      Step d (simtemp_timer_callback d now r).2
  | read (d d0 : simtemp_device) (len : Nat) (nb : Bool) (wr : Int) (ck : Bool) :
      Step d (simtemp_read len nb wr ck d0 d).2
  | ioctl (d : simtemp_device) (cmd : Nat) (ck : Bool) (cfg : simtemp_config) :
      Step d (simtemp_ioctl d cmd ck cfg).2
  | sampling_store (d : simtemp_device) (v : Nat) :
      Step d (sampling_ms_store d v).2
  | threshold_store (d : simtemp_device) (v : Int) :
      Step d (threshold_mC_store d v).2
  | mode_store (d : simtemp_device) (m : simtemp_mode) :
      Step d (simtemp_mode_store d m).2
  | poll (d : simtemp_device) :
      Step d (simtemp_poll d).2

/-- States reachable from a given state by driver operations. -/
inductive ReachableFrom (d0 : simtemp_device) : simtemp_device → Prop
  | refl : ReachableFrom d0 d0
  | step {d d' : simtemp_device} :
      ReachableFrom d0 d → Step d d' → ReachableFrom d0 d'

/-- States reachable from some probe (any device-tree contents). -/
def Reachable (d : simtemp_device) : Prop :=
  ∃ dt_s dt_t, ReachableFrom (simtemp_probe dt_s dt_t) d

/-- The default-probed device (no device-tree node). -/
def d_default : simtemp_device := simtemp_probe none none

/-! ## Helper lemmas -/

lemma generate_temp_preserves (sdev : simtemp_device) (r : Nat) :
    (generate_temp sdev r).2.sampling_ms = sdev.sampling_ms ∧
    (generate_temp sdev r).2.threshold_mC = sdev.threshold_mC ∧
    (generate_temp sdev r).2.mode = sdev.mode ∧
    (generate_temp sdev r).2.event_flags = sdev.event_flags ∧
    (generate_temp sdev r).2.update_count = sdev.update_count ∧
    (generate_temp sdev r).2.alert_count = sdev.alert_count ∧
    (generate_temp sdev r).2.last_error = sdev.last_error ∧
    (generate_temp sdev r).2.sample_fifo = sdev.sample_fifo := by
  cases h : sdev.mode <;> simp [generate_temp, h]

lemma tick_timestamp (d : simtemp_device) (now r : Nat) :
    (simtemp_timer_callback d now r).1.timestamp_ns = now := by
  unfold simtemp_timer_callback
  dsimp only
  split <;> rfl

lemma tick_temp (d : simtemp_device) (now r : Nat) :
    (simtemp_timer_callback d now r).1.temp_mC = (generate_temp d r).1 := by
  unfold simtemp_timer_callback
  dsimp only
  split <;> rfl

lemma tick_sample_flags (d : simtemp_device) (now r : Nat) :
    (simtemp_timer_callback d now r).1.flags =
      if (generate_temp d r).1 ≥ d.threshold_mC then
        SIMTEMP_FLAG_NEW_SAMPLE ||| SIMTEMP_FLAG_THRESHOLD_CROSSED
      else SIMTEMP_FLAG_NEW_SAMPLE := by
  have ht := (generate_temp_preserves d r).2.1
  unfold simtemp_timer_callback
  dsimp only
  rw [ht]
  split <;> simp_all

lemma tick_fifo (d : simtemp_device) (now r : Nat) :
    (simtemp_timer_callback d now r).2.sample_fifo =
      kfifo_put d.sample_fifo (simtemp_timer_callback d now r).1 := by
  have hf := (generate_temp_preserves d r).2.2.2.2.2.2.2
  unfold simtemp_timer_callback
  dsimp only
  split <;> simp [hf]

lemma tick_update_count (d : simtemp_device) (now r : Nat) :
    (simtemp_timer_callback d now r).2.update_count = d.update_count + 1 := by
  have hu := (generate_temp_preserves d r).2.2.2.2.1
  unfold simtemp_timer_callback
  dsimp only
  split <;> simp [hu]

lemma tick_alert_count (d : simtemp_device) (now r : Nat) :
    (simtemp_timer_callback d now r).2.alert_count =
      if (generate_temp d r).1 ≥ d.threshold_mC then d.alert_count + 1
      else d.alert_count := by
  have ht := (generate_temp_preserves d r).2.1
  have ha := (generate_temp_preserves d r).2.2.2.2.2.1
  unfold simtemp_timer_callback
  dsimp only
  rw [ht]
  split <;> simp_all

lemma tick_event_flags (d : simtemp_device) (now r : Nat) :
    (simtemp_timer_callback d now r).2.event_flags =
      if (generate_temp d r).1 ≥ d.threshold_mC then
        d.event_flags ||| SIMTEMP_FLAG_THRESHOLD_CROSSED
      else d.event_flags := by
  have ht := (generate_temp_preserves d r).2.1
  have he := (generate_temp_preserves d r).2.2.2.1
  unfold simtemp_timer_callback
  dsimp only
  rw [ht]
  split <;> simp_all

lemma tick_sampling_ms (d : simtemp_device) (now r : Nat) :
    (simtemp_timer_callback d now r).2.sampling_ms = d.sampling_ms := by
  have hs := (generate_temp_preserves d r).1
  unfold simtemp_timer_callback
  dsimp only
  split <;> simp [hs]

lemma tick_threshold (d : simtemp_device) (now r : Nat) :
    (simtemp_timer_callback d now r).2.threshold_mC = d.threshold_mC := by
  have ht := (generate_temp_preserves d r).2.1
  unfold simtemp_timer_callback
  dsimp only
  split <;> simp [ht]

lemma read_locked_empty (ck : Bool) (d : simtemp_device) (h : d.sample_fifo = []) :
    simtemp_read_locked ck d = (.err (-EAGAIN), d) := by
  simp [simtemp_read_locked, h]

lemma read_locked_pop (ck : Bool) (d : simtemp_device) (s : simtemp_sample)
    (rest : List simtemp_sample) (h : d.sample_fifo = s :: rest) :
    simtemp_read_locked ck d =
      if ck then (.ok s, { d with sample_fifo := rest, event_flags := 0 })
      else (.err (-EFAULT),
            { d with sample_fifo := rest, event_flags := 0, last_error := -EFAULT }) := by
  cases ck <;> simp [simtemp_read_locked, h]

lemma read_locked_preserves (ck : Bool) (d : simtemp_device) :
    (simtemp_read_locked ck d).2.sampling_ms = d.sampling_ms ∧
    (simtemp_read_locked ck d).2.threshold_mC = d.threshold_mC ∧
    (simtemp_read_locked ck d).2.update_count = d.update_count ∧
    (simtemp_read_locked ck d).2.alert_count = d.alert_count := by
  rcases hf : d.sample_fifo with _ | ⟨s, rest⟩
  · rw [read_locked_empty ck d hf]
    exact ⟨rfl, rfl, rfl, rfl⟩
  · rw [read_locked_pop ck d s rest hf]
    split <;> exact ⟨rfl, rfl, rfl, rfl⟩

lemma read_locked_event_flags (ck : Bool) (d : simtemp_device)
    (h : d.sample_fifo ≠ []) :
    (simtemp_read_locked ck d).2.event_flags = 0 := by
  cases hf : d.sample_fifo with
  | nil => exact absurd hf h
  | cons s rest =>
      rw [read_locked_pop ck d s rest hf]
      split <;> rfl

lemma read_cases (len : Nat) (nb : Bool) (wr : Int) (ck : Bool)
    (d0 d1 : simtemp_device) :
    (simtemp_read len nb wr ck d0 d1).2 = d1 ∨
    simtemp_read len nb wr ck d0 d1 = simtemp_read_locked ck d1 := by
  unfold simtemp_read
  split
  · left; rfl
  · split
    · split
      · left; rfl
      · split
        · left; rfl
        · right; rfl
    · right; rfl

lemma read_preserves (len : Nat) (nb : Bool) (wr : Int) (ck : Bool)
    (d0 d1 : simtemp_device) :
    (simtemp_read len nb wr ck d0 d1).2.sampling_ms = d1.sampling_ms ∧
    (simtemp_read len nb wr ck d0 d1).2.threshold_mC = d1.threshold_mC ∧
    (simtemp_read len nb wr ck d0 d1).2.update_count = d1.update_count ∧
    (simtemp_read len nb wr ck d0 d1).2.alert_count = d1.alert_count := by
  rcases read_cases len nb wr ck d0 d1 with h | h
  · rw [h]; exact ⟨rfl, rfl, rfl, rfl⟩
  · rw [h]; exact read_locked_preserves ck d1

lemma ioctl_preserves_counts (d : simtemp_device) (cmd : Nat) (ck : Bool)
    (cfg : simtemp_config) :
    (simtemp_ioctl d cmd ck cfg).2.update_count = d.update_count ∧
    (simtemp_ioctl d cmd ck cfg).2.alert_count = d.alert_count ∧
    (simtemp_ioctl d cmd ck cfg).2.event_flags = d.event_flags ∧
    (simtemp_ioctl d cmd ck cfg).2.sample_fifo = d.sample_fifo := by
  unfold simtemp_ioctl
  split
  · split
    · exact ⟨rfl, rfl, rfl, rfl⟩
    · split
      · exact ⟨rfl, rfl, rfl, rfl⟩
      · exact ⟨rfl, rfl, rfl, rfl⟩
  · exact ⟨rfl, rfl, rfl, rfl⟩

lemma ioctl_sampling_bounds (d : simtemp_device) (cmd : Nat) (ck : Bool)
    (cfg : simtemp_config) :
    (simtemp_ioctl d cmd ck cfg).2.sampling_ms = d.sampling_ms ∨
    (MIN_SAMPLING_MS ≤ (simtemp_ioctl d cmd ck cfg).2.sampling_ms ∧
      (simtemp_ioctl d cmd ck cfg).2.sampling_ms ≤ MAX_SAMPLING_MS) := by
  unfold simtemp_ioctl
  split
  · split
    · left; rfl
    · split
      · left; rfl
      · next h =>
          right
          push_neg at h
          exact ⟨h.1, h.2⟩
  · left; rfl

lemma sampling_store_bounds (d : simtemp_device) (v : Nat) :
    (sampling_ms_store d v).2.sampling_ms = d.sampling_ms ∨
    (MIN_SAMPLING_MS ≤ (sampling_ms_store d v).2.sampling_ms ∧
      (sampling_ms_store d v).2.sampling_ms ≤ MAX_SAMPLING_MS) := by
  unfold sampling_ms_store
  split
  · left; rfl
  · next h =>
      right
      push_neg at h
      exact ⟨h.1, h.2⟩

lemma sampling_store_preserves (d : simtemp_device) (v : Nat) :
    (sampling_ms_store d v).2.update_count = d.update_count ∧
    (sampling_ms_store d v).2.alert_count = d.alert_count ∧
    (sampling_ms_store d v).2.event_flags = d.event_flags := by
  unfold sampling_ms_store
  split <;> exact ⟨rfl, rfl, rfl⟩

lemma threshold_store_preserves (d : simtemp_device) (v : Int) :
    (threshold_mC_store d v).2.sampling_ms = d.sampling_ms ∧
    (threshold_mC_store d v).2.update_count = d.update_count ∧
    (threshold_mC_store d v).2.alert_count = d.alert_count ∧
    (threshold_mC_store d v).2.event_flags = d.event_flags :=
  ⟨rfl, rfl, rfl, rfl⟩

lemma mode_store_preserves (d : simtemp_device) (m : simtemp_mode) :
    (simtemp_mode_store d m).2.sampling_ms = d.sampling_ms ∧
    (simtemp_mode_store d m).2.update_count = d.update_count ∧
    (simtemp_mode_store d m).2.alert_count = d.alert_count ∧
    (simtemp_mode_store d m).2.event_flags = d.event_flags := by
  unfold simtemp_mode_store
  split <;> exact ⟨rfl, rfl, rfl, rfl⟩

lemma or_two_and_two_ne_zero (a : Nat) : (a ||| 2) &&& 2 ≠ 0 := by
  intro h
  have hb := congrArg (fun n => n.testBit 1) h
  have h2 : Nat.testBit 2 1 = true := by decide
  have h0 : Nat.testBit 0 1 = false := by decide
  simp only [Nat.testBit_and, Nat.testBit_or, h2, h0] at hb
  simp at hb

lemma run_ticks_cons (d : simtemp_device) (p : Nat × Nat) (rest : List (Nat × Nat)) :
    run_ticks d (p :: rest) = run_ticks (simtemp_timer_callback d p.1 p.2).2 rest := rfl

lemma ticks_samples_cons (d : simtemp_device) (p : Nat × Nat) (rest : List (Nat × Nat)) :
    ticks_samples d (p :: rest) =
      (simtemp_timer_callback d p.1 p.2).1 ::
        ticks_samples (simtemp_timer_callback d p.1 p.2).2 rest := rfl

lemma ticks_samples_timestamps (inputs : List (Nat × Nat)) :
    ∀ d : simtemp_device,
      (ticks_samples d inputs).map (fun s => s.timestamp_ns) = inputs.map Prod.fst := by
  induction inputs with
  | nil => intro d; rfl
  | cons p rest ih =>
      intro d
      rw [ticks_samples_cons]
      simp [tick_timestamp, ih]

lemma run_ticks_fifo (inputs : List (Nat × Nat)) :
    ∀ d : simtemp_device, d.sample_fifo.length + inputs.length ≤ FIFO_SIZE →
      (run_ticks d inputs).sample_fifo = d.sample_fifo ++ ticks_samples d inputs := by
  induction inputs with
  | nil => intro d h; simp [run_ticks, ticks_samples]
  | cons p rest ih =>
      intro d h
      rw [run_ticks_cons, ticks_samples_cons]
      have hlt : d.sample_fifo.length < FIFO_SIZE := by
        simp at h
        omega
      have hf : (simtemp_timer_callback d p.1 p.2).2.sample_fifo =
          d.sample_fifo ++ [(simtemp_timer_callback d p.1 p.2).1] := by
        rw [tick_fifo]
        unfold kfifo_put
        rw [if_pos hlt]
      have hlen : (simtemp_timer_callback d p.1 p.2).2.sample_fifo.length + rest.length ≤
          FIFO_SIZE := by
        rw [hf]
        simp at h ⊢
        omega
      rw [ih _ hlen, hf, List.append_assoc]
      rfl

/-! ## Concrete states for witnesses and counterexamples -/

/-- A buffered sample (temperature 55 °C, NEW|THRESHOLD_CROSSED). -/
def s_buf : simtemp_sample := { timestamp_ns := 0, temp_mC := 55000, flags := 3 }

/-- Default device with a pending alert and one buffered sample. -/
def d_alert : simtemp_device :=
  { d_default with event_flags := SIMTEMP_FLAG_THRESHOLD_CROSSED, sample_fifo := [s_buf] }

/-- Default device with threshold 0 (every generated sample crosses it). -/
def d_low : simtemp_device := { d_default with threshold_mC := 0 }

/-- Default device switched to MODE_RAMP. -/
def d_ramp0 : simtemp_device := { d_default with mode := .MODE_RAMP }

/-- Default device switched to MODE_NOISY. -/
def d_noisy0 : simtemp_device := { d_default with mode := .MODE_NOISY }

/-- Default device whose fifo is full. -/
def d_full : simtemp_device :=
  { d_default with sample_fifo := List.replicate FIFO_SIZE s_buf }

/-! ## Claims -/

/-- C1: in the successful set_config path of `simtemp_ioctl` the guard is
acquired exactly once and both configuration fields are written inside
that single critical section — but, contrary to the claim, the timer
reprogramming (`hrtimer_start`) executes only after the guard has been
released (the sysfs `sampling_ms_store` does reprogram inside the
guard, and the repository's own design notes say the ioctl handler was
meant to as well). -/
theorem C1_set_config_guard_trace :
    simtemp_ioctl_success_events.count .lock = 1 ∧
    ioctl_event_pos .lock < ioctl_event_pos .write_sampling_ms ∧
    ioctl_event_pos .write_sampling_ms < ioctl_event_pos .unlock ∧
    ioctl_event_pos .lock < ioctl_event_pos .write_threshold_mC ∧
    ioctl_event_pos .write_threshold_mC < ioctl_event_pos .unlock ∧
    ioctl_event_pos .unlock < ioctl_event_pos .hrtimer_start_call := by
  decide

/-- C5: a SIMTEMP_IOC_SET_CONFIG whose period is below MIN_SAMPLING_MS or
above MAX_SAMPLING_MS fails with -EINVAL and leaves every field of the
device state exactly as it was. -/
theorem C5_out_of_bounds_set_config (d : simtemp_device) (cfg : simtemp_config)
    (h : cfg.sampling_ms < MIN_SAMPLING_MS ∨ cfg.sampling_ms > MAX_SAMPLING_MS) :
    simtemp_ioctl d SIMTEMP_IOC_SET_CONFIG true cfg = (-EINVAL, d) := by
  unfold simtemp_ioctl
  rw [if_pos rfl, if_neg (by simp), if_pos h]

theorem C5_out_of_bounds_set_config_witness :
    simtemp_ioctl d_default SIMTEMP_IOC_SET_CONFIG true ⟨5, 0⟩ = (-EINVAL, d_default) ∧
    simtemp_ioctl d_default SIMTEMP_IOC_SET_CONFIG true ⟨60001, 0⟩ = (-EINVAL, d_default) :=
  ⟨C5_out_of_bounds_set_config d_default ⟨5, 0⟩ (Or.inl (by decide)),
   C5_out_of_bounds_set_config d_default ⟨60001, 0⟩ (Or.inr (by decide))⟩

/-- C7: `simtemp_poll` reports EPOLLIN|EPOLLRDNORM exactly when the queue
is non-empty and EPOLLPRI exactly when THRESHOLD_CROSSED is pending in
`event_flags`, and it leaves the device state unchanged. -/
theorem C7_poll_semantics (d : simtemp_device) :
    ((simtemp_poll d).1 &&& (EPOLLIN ||| EPOLLRDNORM) ≠ 0 ↔ d.sample_fifo ≠ []) ∧
    ((simtemp_poll d).1 &&& EPOLLPRI ≠ 0 ↔
      d.event_flags &&& SIMTEMP_FLAG_THRESHOLD_CROSSED ≠ 0) ∧
    (simtemp_poll d).2 = d := by
  unfold simtemp_poll
  dsimp only
  refine ⟨?_, ?_, rfl⟩ <;>
    split_ifs with h1 h2 <;>
      simp_all [EPOLLIN, EPOLLPRI, EPOLLRDNORM, List.isEmpty_iff] <;>
        decide

/-- C8: `generate_temp` in MODE_RAMP advances `ramp_temp` by 500, resets it
to 25000 once it exceeds 85000, and outputs the new `ramp_temp` plus the
half-amplitude jitter; in MODE_NORMAL and MODE_NOISY the device (so in
particular `ramp_temp`) is unchanged and the output is 42000 plus the
jitter, respectively plus five times the jitter. -/
theorem C8_generate_temp_modes (d : simtemp_device) (r : Nat) :
    (d.mode = .MODE_RAMP →
        (generate_temp d r).2.ramp_temp =
          (if d.ramp_temp + 500 > 85000 then (25000 : Int) else d.ramp_temp + 500) ∧
        (generate_temp d r).2 = { d with ramp_temp := (generate_temp d r).2.ramp_temp } ∧
        (generate_temp d r).1 =
          (generate_temp d r).2.ramp_temp +
            Int.tdiv (((r % 2000 : Nat) : Int) - 1000) 2) ∧
    (d.mode = .MODE_NORMAL → (generate_temp d r).2 = d ∧
        (generate_temp d r).1 = 42000 + (((r % 2000 : Nat) : Int) - 1000)) ∧
    (d.mode = .MODE_NOISY → (generate_temp d r).2 = d ∧
        (generate_temp d r).1 = 42000 + (((r % 2000 : Nat) : Int) - 1000) * 5) := by
  refine ⟨?_, ?_, ?_⟩ <;> intro h <;> simp [generate_temp, h]

theorem C8_generate_temp_modes_witness :
    ((generate_temp d_ramp0 0).2.ramp_temp =
        (if d_ramp0.ramp_temp + 500 > 85000 then (25000 : Int) else d_ramp0.ramp_temp + 500) ∧
      (generate_temp d_ramp0 0).2 =
        { d_ramp0 with ramp_temp := (generate_temp d_ramp0 0).2.ramp_temp } ∧
      (generate_temp d_ramp0 0).1 =
        (generate_temp d_ramp0 0).2.ramp_temp +
          Int.tdiv (((0 % 2000 : Nat) : Int) - 1000) 2) ∧
    ((generate_temp d_default 0).2 = d_default ∧
      (generate_temp d_default 0).1 = 42000 + (((0 % 2000 : Nat) : Int) - 1000)) ∧
    ((generate_temp d_noisy0 0).2 = d_noisy0 ∧
      (generate_temp d_noisy0 0).1 = 42000 + (((0 % 2000 : Nat) : Int) - 1000) * 5) :=
  ⟨(C8_generate_temp_modes d_ramp0 0).1 rfl,
   (C8_generate_temp_modes d_default 0).2.1 rfl,
   (C8_generate_temp_modes d_noisy0 0).2.2 rfl⟩

/-- C9: a tick that fires while the queue is full drops the new sample
(the queue contents are unchanged) yet still increments `update_count`,
and increments `alert_count` exactly when the threshold was crossed. -/
theorem C9_full_queue_tick (d : simtemp_device) (now r : Nat)
    (hfull : d.sample_fifo.length = FIFO_SIZE) :
    (simtemp_timer_callback d now r).2.sample_fifo = d.sample_fifo ∧
    (simtemp_timer_callback d now r).2.update_count = d.update_count + 1 ∧
    (simtemp_timer_callback d now r).2.alert_count =
      (if (simtemp_timer_callback d now r).1.temp_mC ≥ d.threshold_mC then
        d.alert_count + 1 else d.alert_count) := by
  refine ⟨?_, tick_update_count d now r, ?_⟩
  · rw [tick_fifo]
    unfold kfifo_put
    rw [if_neg (by omega)]
  · rw [tick_alert_count, tick_temp]

theorem C9_full_queue_tick_witness :
    (simtemp_timer_callback d_full 7 3).2.sample_fifo = d_full.sample_fifo ∧
    (simtemp_timer_callback d_full 7 3).2.update_count = d_full.update_count + 1 ∧
    (simtemp_timer_callback d_full 7 3).2.alert_count =
      (if (simtemp_timer_callback d_full 7 3).1.temp_mC ≥ d_full.threshold_mC then
        d_full.alert_count + 1 else d_full.alert_count) :=
  C9_full_queue_tick d_full 7 3 (by simp [d_full])

lemma read_locked_outcomes (ck : Bool) (d : simtemp_device) :
    (∃ s d', simtemp_read_locked ck d = (.ok s, d')) ∨
    (d.sample_fifo = [] ∧ (simtemp_read_locked ck d).1 = .err (-EAGAIN)) ∨
    (ck = false ∧ (simtemp_read_locked ck d).1 = .err (-EFAULT)) := by
  rcases hf : d.sample_fifo with _ | ⟨s, rest⟩
  · right; left
    exact ⟨rfl, by rw [read_locked_empty ck d hf]⟩
  · cases ck
    · right; right
      refine ⟨rfl, ?_⟩
      rw [read_locked_pop false d s rest hf]
      simp
    · left
      refine ⟨s, { d with sample_fifo := rest, event_flags := 0 }, ?_⟩
      rw [read_locked_pop true d s rest hf]
      simp

/-- C2 counterexample: a blocking read (`nonblock = false`) whose wait
completed normally (`wait_ret = 0`) but whose pop-time queue is empty —
the lost-race case — fails with -EAGAIN (WouldBlock), which the claim
says a blocking read can never return. -/
theorem C2_counterexample :
    (simtemp_read sample_size false 0 true d_default d_default).1 = .err (-EAGAIN) := by
  decide

/-- C2 (amended): a blocking read with a big-enough buffer returns one
sample, or the wait's interruption error when cancelled by a signal, or
-EFAULT when the copy-out fails, or — because the post-wait pop is
attempted exactly once, with no retry loop — -EAGAIN (WouldBlock) when
the queue is empty at pop time (a lost race with another consumer). -/
theorem C2_blocking_read_outcomes (len : Nat) (wait_ret : Int) (copy_ok : Bool)
    (d0 d1 : simtemp_device) (hlen : sample_size ≤ len) :
    (∃ s d', simtemp_read len false wait_ret copy_ok d0 d1 = (.ok s, d')) ∨
    (d0.sample_fifo.isEmpty = true ∧ wait_ret ≠ 0 ∧
      simtemp_read len false wait_ret copy_ok d0 d1 = (.err wait_ret, d1)) ∨
    (d1.sample_fifo = [] ∧
      (simtemp_read len false wait_ret copy_ok d0 d1).1 = .err (-EAGAIN)) ∨
    (copy_ok = false ∧
      (simtemp_read len false wait_ret copy_ok d0 d1).1 = .err (-EFAULT)) := by
  have hnl : ¬len < sample_size := Nat.not_lt.mpr hlen
  unfold simtemp_read
  rw [if_neg hnl]
  by_cases h0 : d0.sample_fifo.isEmpty
  · rw [if_pos h0, if_neg (by simp)]
    by_cases hw : wait_ret ≠ 0
    · rw [if_pos hw]
      right; left
      exact ⟨h0, hw, rfl⟩
    · rw [if_neg hw]
      rcases read_locked_outcomes copy_ok d1 with ⟨s, d', hs⟩ | ⟨hf, hs⟩ | ⟨hc, hs⟩
      · exact Or.inl ⟨s, d', hs⟩
      · exact Or.inr (Or.inr (Or.inl ⟨hf, hs⟩))
      · exact Or.inr (Or.inr (Or.inr ⟨hc, hs⟩))
  · rw [if_neg h0]
    rcases read_locked_outcomes copy_ok d1 with ⟨s, d', hs⟩ | ⟨hf, hs⟩ | ⟨hc, hs⟩
    · exact Or.inl ⟨s, d', hs⟩
    · exact Or.inr (Or.inr (Or.inl ⟨hf, hs⟩))
    · exact Or.inr (Or.inr (Or.inr ⟨hc, hs⟩))

theorem C2_blocking_read_outcomes_witness :
    (∃ s d', simtemp_read sample_size false (-ERESTARTSYS) true d_default d_default =
        (.ok s, d')) ∨
    (d_default.sample_fifo.isEmpty = true ∧ (-ERESTARTSYS : Int) ≠ 0 ∧
      simtemp_read sample_size false (-ERESTARTSYS) true d_default d_default =
        (.err (-ERESTARTSYS), d_default)) ∨
    (d_default.sample_fifo = [] ∧
      (simtemp_read sample_size false (-ERESTARTSYS) true d_default d_default).1 =
        .err (-EAGAIN)) ∨
    ((true : Bool) = false ∧
      (simtemp_read sample_size false (-ERESTARTSYS) true d_default d_default).1 =
        .err (-EFAULT)) :=
  C2_blocking_read_outcomes sample_size (-ERESTARTSYS) true d_default d_default
    (Nat.le_refl sample_size)

/-- C3 counterexample: with THRESHOLD_CROSSED pending and one buffered
sample, a read whose copy_to_user fails returns -EFAULT — an
unsuccessful read — and yet `event_flags` has been cleared, contrary to
the claim that only a successful read clears it. -/
theorem C3_counterexample :
    (simtemp_read sample_size false 0 false d_alert d_alert).1 = .err (-EFAULT) ∧
    d_alert.event_flags = SIMTEMP_FLAG_THRESHOLD_CROSSED ∧
    (simtemp_read sample_size false 0 false d_alert d_alert).2.event_flags = 0 := by
  decide

/-- C3 (amended): a tick whose temperature meets the threshold marks both
the produced sample's flags and `event_flags` with THRESHOLD_CROSSED; a
set `event_flags` bit survives every further tick, set_config, sysfs
store and poll; and it is cleared exactly by a read that dequeues a
sample — including a read whose copy-out then fails with -EFAULT —
while a read that dequeues nothing leaves the device unchanged. -/
theorem C3_alert_flag_lifecycle :
    (∀ (d : simtemp_device) (now r : Nat),
        (simtemp_timer_callback d now r).1.temp_mC ≥ d.threshold_mC →
        (simtemp_timer_callback d now r).1.flags &&& SIMTEMP_FLAG_THRESHOLD_CROSSED ≠ 0 ∧
        (simtemp_timer_callback d now r).2.event_flags &&&
          SIMTEMP_FLAG_THRESHOLD_CROSSED ≠ 0) ∧
    (∀ (d : simtemp_device) (now r : Nat),
        d.event_flags &&& SIMTEMP_FLAG_THRESHOLD_CROSSED ≠ 0 →
        (simtemp_timer_callback d now r).2.event_flags &&&
          SIMTEMP_FLAG_THRESHOLD_CROSSED ≠ 0) ∧
    (∀ (ck : Bool) (d : simtemp_device), d.sample_fifo ≠ [] →
        (simtemp_read_locked ck d).2.event_flags = 0) ∧
    (∀ (ck : Bool) (d : simtemp_device), d.sample_fifo = [] →
        (simtemp_read_locked ck d).2 = d) ∧
    (∀ (len : Nat) (nb : Bool) (wr : Int) (ck : Bool) (d0 d1 : simtemp_device),
        (simtemp_read len nb wr ck d0 d1).2 = d1 ∨
        simtemp_read len nb wr ck d0 d1 = simtemp_read_locked ck d1) ∧
    (∀ (d : simtemp_device) (cmd : Nat) (ck : Bool) (cfg : simtemp_config),
        (simtemp_ioctl d cmd ck cfg).2.event_flags = d.event_flags) ∧
    (∀ (d : simtemp_device) (v : Nat),
        (sampling_ms_store d v).2.event_flags = d.event_flags) ∧
    (∀ (d : simtemp_device) (v : Int),
        (threshold_mC_store d v).2.event_flags = d.event_flags) ∧
    (∀ (d : simtemp_device) (m : simtemp_mode),
        (simtemp_mode_store d m).2.event_flags = d.event_flags) ∧
    (∀ d : simtemp_device, (simtemp_poll d).2 = d) := by
  refine ⟨?_, ?_, ?_, ?_, ?_, ?_, ?_, ?_, ?_, ?_⟩
  · intro d now r h
    rw [tick_temp] at h
    constructor
    · rw [tick_sample_flags, if_pos h]
      decide
    · rw [tick_event_flags, if_pos h]
      exact or_two_and_two_ne_zero _
  · intro d now r h
    rw [tick_event_flags]
    split
    · exact or_two_and_two_ne_zero _
    · exact h
  · exact fun ck d h => read_locked_event_flags ck d h
  · intro ck d h
    rw [read_locked_empty ck d h]
  · exact fun len nb wr ck d0 d1 => read_cases len nb wr ck d0 d1
  · exact fun d cmd ck cfg => (ioctl_preserves_counts d cmd ck cfg).2.2.1
  · exact fun d v => (sampling_store_preserves d v).2.2
  · exact fun d v => (threshold_store_preserves d v).2.2.2
  · exact fun d m => (mode_store_preserves d m).2.2.2
  · exact fun d => rfl

theorem C3_alert_flag_lifecycle_witness :
    ((simtemp_timer_callback d_low 1 0).1.flags &&& SIMTEMP_FLAG_THRESHOLD_CROSSED ≠ 0 ∧
      (simtemp_timer_callback d_low 1 0).2.event_flags &&&
        SIMTEMP_FLAG_THRESHOLD_CROSSED ≠ 0) ∧
    (simtemp_read_locked true d_alert).2.event_flags = 0 ∧
    (simtemp_read_locked true d_default).2 = d_default :=
  ⟨C3_alert_flag_lifecycle.1 d_low 1 0 (by decide),
   C3_alert_flag_lifecycle.2.2.1 true d_alert (by decide),
   C3_alert_flag_lifecycle.2.2.2.1 true d_default rfl⟩

/-- C4 counterexample: probing with a device-tree `sampling-ms` of 5
yields a reachable construction-time state whose period is below
MIN_SAMPLING_MS — `of_property_read_u32` installs the device-tree value
with no bounds check. -/
theorem C4_counterexample :
    Reachable (simtemp_probe (some 5) none) ∧
    (simtemp_probe (some 5) none).sampling_ms < MIN_SAMPLING_MS :=
  ⟨⟨some 5, none, ReachableFrom.refl⟩, by decide⟩

/-- C4 (amended): provided the construction-time period is within bounds
(the no-device-tree default 1000 is; a device-tree value is installed
unvalidated), every state reachable by driver operations keeps the
period within [MIN_SAMPLING_MS, MAX_SAMPLING_MS]; and a rejected
`sampling_ms` update fails with -EINVAL leaving the device exactly
unchanged. -/
theorem C4_period_bounds_invariant :
    (∀ d0 d : simtemp_device,
        MIN_SAMPLING_MS ≤ d0.sampling_ms → d0.sampling_ms ≤ MAX_SAMPLING_MS →
        ReachableFrom d0 d →
        MIN_SAMPLING_MS ≤ d.sampling_ms ∧ d.sampling_ms ≤ MAX_SAMPLING_MS) ∧
    (∀ (d : simtemp_device) (v : Nat),
        v < MIN_SAMPLING_MS ∨ v > MAX_SAMPLING_MS →
        sampling_ms_store d v = (-EINVAL, d)) := by
  constructor
  · intro d0 d h1 h2 hr
    induction hr with
    | refl => exact ⟨h1, h2⟩
    | step hr' hs ih =>
        rename_i dmid d'
        obtain ⟨ih1, ih2⟩ := ih
        cases hs with
        | tick now r => rw [tick_sampling_ms]; exact ⟨ih1, ih2⟩
        | read dd0 len nb wr ck =>
            rw [(read_preserves len nb wr ck dd0 dmid).1]
            exact ⟨ih1, ih2⟩
        | ioctl cmd ck cfg =>
            rcases ioctl_sampling_bounds dmid cmd ck cfg with h | h
            · rw [h]; exact ⟨ih1, ih2⟩
            · exact h
        | sampling_store v =>
            rcases sampling_store_bounds dmid v with h | h
            · rw [h]; exact ⟨ih1, ih2⟩
            · exact h
        | threshold_store v =>
            rw [(threshold_store_preserves dmid v).1]
            exact ⟨ih1, ih2⟩
        | mode_store m =>
            rw [(mode_store_preserves dmid m).1]
            exact ⟨ih1, ih2⟩
        | poll => exact ⟨ih1, ih2⟩
  · intro d v h
    unfold sampling_ms_store
    rw [if_pos h]

theorem C4_period_bounds_invariant_witness :
    (MIN_SAMPLING_MS ≤ d_default.sampling_ms ∧
      d_default.sampling_ms ≤ MAX_SAMPLING_MS) ∧
    sampling_ms_store d_default 5 = (-EINVAL, d_default) :=
  ⟨C4_period_bounds_invariant.1 d_default d_default (by decide) (by decide)
      ReachableFrom.refl,
   C4_period_bounds_invariant.2 d_default 5 (Or.inl (by decide))⟩

/-- C10: in every reachable device state `alert_count ≤ update_count`: the
probe zeroes both counters, a tick increments `update_count` by exactly
one and `alert_count` by at most one, and no other operation (read,
set_config, sysfs stores, poll) modifies either counter. -/
theorem C10_alert_le_update :
    (∀ d : simtemp_device, Reachable d → d.alert_count ≤ d.update_count) ∧
    (∀ (d : simtemp_device) (now r : Nat),
        (simtemp_timer_callback d now r).2.update_count = d.update_count + 1 ∧
        ((simtemp_timer_callback d now r).2.alert_count = d.alert_count ∨
          (simtemp_timer_callback d now r).2.alert_count = d.alert_count + 1)) ∧
    (∀ (len : Nat) (nb : Bool) (wr : Int) (ck : Bool) (d0 d1 : simtemp_device),
        (simtemp_read len nb wr ck d0 d1).2.update_count = d1.update_count ∧
        (simtemp_read len nb wr ck d0 d1).2.alert_count = d1.alert_count) ∧
    (∀ (d : simtemp_device) (cmd : Nat) (ck : Bool) (cfg : simtemp_config),
        (simtemp_ioctl d cmd ck cfg).2.update_count = d.update_count ∧
        (simtemp_ioctl d cmd ck cfg).2.alert_count = d.alert_count) ∧
    (∀ (d : simtemp_device) (v : Nat),
        (sampling_ms_store d v).2.update_count = d.update_count ∧
        (sampling_ms_store d v).2.alert_count = d.alert_count) ∧
    (∀ (d : simtemp_device) (v : Int),
        (threshold_mC_store d v).2.update_count = d.update_count ∧
        (threshold_mC_store d v).2.alert_count = d.alert_count) ∧
    (∀ (d : simtemp_device) (m : simtemp_mode),
        (simtemp_mode_store d m).2.update_count = d.update_count ∧
        (simtemp_mode_store d m).2.alert_count = d.alert_count) ∧
    (∀ d : simtemp_device, (simtemp_poll d).2 = d) := by
  refine ⟨?_, ?_, ?_, ?_, ?_, ?_, ?_, ?_⟩
  · rintro d ⟨dts, dtt, hr⟩
    induction hr with
    | refl => exact Nat.le.refl
    | step hr' hs ih =>
        rename_i dmid d'
        cases hs with
        | tick now r =>
            rw [tick_update_count, tick_alert_count]
            split
            · omega
            · omega
        | read dd0 len nb wr ck =>
            rw [(read_preserves len nb wr ck dd0 dmid).2.2.1,
                (read_preserves len nb wr ck dd0 dmid).2.2.2]
            exact ih
        | ioctl cmd ck cfg =>
            rw [(ioctl_preserves_counts dmid cmd ck cfg).1,
                (ioctl_preserves_counts dmid cmd ck cfg).2.1]
            exact ih
        | sampling_store v =>
            rw [(sampling_store_preserves dmid v).1,
                (sampling_store_preserves dmid v).2.1]
            exact ih
        | threshold_store v =>
            rw [(threshold_store_preserves dmid v).2.1,
                (threshold_store_preserves dmid v).2.2.1]
            exact ih
        | mode_store m =>
            rw [(mode_store_preserves dmid m).2.1,
                (mode_store_preserves dmid m).2.2.1]
            exact ih
        | poll => exact ih
  · intro d now r
    refine ⟨tick_update_count d now r, ?_⟩
    rw [tick_alert_count]
    split
    · right; rfl
    · left; rfl
  · exact fun len nb wr ck d0 d1 =>
      ⟨(read_preserves len nb wr ck d0 d1).2.2.1,
       (read_preserves len nb wr ck d0 d1).2.2.2⟩
  · exact fun d cmd ck cfg =>
      ⟨(ioctl_preserves_counts d cmd ck cfg).1,
       (ioctl_preserves_counts d cmd ck cfg).2.1⟩
  · exact fun d v =>
      ⟨(sampling_store_preserves d v).1, (sampling_store_preserves d v).2.1⟩
  · exact fun d v =>
      ⟨(threshold_store_preserves d v).2.1, (threshold_store_preserves d v).2.2.1⟩
  · exact fun d m =>
      ⟨(mode_store_preserves d m).2.1, (mode_store_preserves d m).2.2.1⟩
  · exact fun d => rfl

theorem C10_alert_le_update_witness :
    d_default.alert_count ≤ d_default.update_count :=
  C10_alert_le_update.1 d_default ⟨none, none, ReachableFrom.refl⟩

/-- C6: starting from an empty queue, any sequence of at most FIFO_SIZE
ticks (no overflow) with non-decreasing clock readings leaves the queue
holding exactly the produced samples in tick order, those samples carry
non-decreasing timestamps, and each read dequeues the oldest buffered
sample first (so the sample of an earlier tick is returned before that
of any later tick). -/
theorem C6_fifo_order (d : simtemp_device) (inputs : List (Nat × Nat))
    (hempty : d.sample_fifo = []) (hlen : inputs.length ≤ FIFO_SIZE)
    (hmono : List.Chain' (· ≤ ·) (inputs.map Prod.fst)) :
    (run_ticks d inputs).sample_fifo = ticks_samples d inputs ∧
    List.Chain' (· ≤ ·) ((ticks_samples d inputs).map (fun s => s.timestamp_ns)) ∧
    (∀ (d' : simtemp_device) (s : simtemp_sample) (rest : List simtemp_sample),
        d'.sample_fifo = s :: rest →
        simtemp_read sample_size false 0 true d' d' =
          (.ok s, { d' with sample_fifo := rest, event_flags := 0 })) := by
  refine ⟨?_, ?_, ?_⟩
  · have h := run_ticks_fifo inputs d (by rw [hempty]; simpa using hlen)
    rw [hempty] at h
    simpa using h
  · rw [ticks_samples_timestamps]
    exact hmono
  · intro d' s rest h
    unfold simtemp_read
    rw [if_neg (Nat.lt_irrefl sample_size), if_neg (by simp [h])]
    rw [read_locked_pop true d' s rest h]
    simp

theorem C6_fifo_order_witness :
    (run_ticks d_default [(100, 0), (200, 1999)]).sample_fifo =
      ticks_samples d_default [(100, 0), (200, 1999)] ∧
    List.Chain' (· ≤ ·)
      ((ticks_samples d_default [(100, 0), (200, 1999)]).map (fun s => s.timestamp_ns)) ∧
    simtemp_read sample_size false 0 true d_alert d_alert =
      (.ok s_buf, { d_alert with sample_fifo := [], event_flags := 0 }) :=
  ⟨(C6_fifo_order d_default [(100, 0), (200, 1999)] rfl (by decide)
      (by simp [List.chain'_cons])).1,
   (C6_fifo_order d_default [(100, 0), (200, 1999)] rfl (by decide)
      (by simp [List.chain'_cons])).2.1,
   (C6_fifo_order d_default [(100, 0), (200, 1999)] rfl (by decide)
      (by simp [List.chain'_cons])).2.2 d_alert s_buf [] rfl⟩
